import Mathlib

/-!
Verification development for the message-relay system in `src/main.py`:
an HTTP ingress handler that validates a two-field form submission and
forwards it over a one-shot TCP connection to a socket relay server,
which decodes the JSON payload, stamps it with the current server time
and inserts it into a MongoDB collection.

The Python code is shallowly embedded as pure Lean functions.  Network,
clock and database effects are made explicit: each handler takes the
outcome of its external calls as parameters (connect/send outcome, the
current time, the insert outcome) and returns the trace of observable
events it performs (log lines, bytes sent, responses written, documents
inserted, connection closed).
-/

namespace Relay

/-- JSON values, as produced by `json.dumps` / consumed by `json.loads`
in `main.py`.  Numbers are modelled as integers (the relay payloads
built by the ingress side contain only strings; floats never occur on
any path the development reasons about). -/
inductive Json where
  | null
  | bool (b : Bool)
  | num (n : Int)
  | str (s : String)
  | arr (elems : List Json)
  | obj (fields : List (String × Json))

/-- Python `dict` assignment `d[k] = v`: replace the value in place when
the key is present, append the pair otherwise. -/
def setKey {α : Type} (fields : List (String × α)) (k : String) (v : α) :
    List (String × α) :=
  match fields with
  | [] => [(k, v)]
  | (k', v') :: rest =>
      if k' = k then (k, v) :: rest else (k', v') :: setKey rest k v

/-- First value bound to `k`, Python `d.get(k)`. -/
def getKey {α : Type} (fields : List (String × α)) (k : String) : Option α :=
  match fields with
  | [] => none
  | (k', v) :: rest => if k' = k then some v else getKey rest k

/-- String escaping of `json.dumps` restricted to the characters the
development exercises: quote, backslash and the common control
characters.  (CPython additionally `\u`-escapes other control and
non-ASCII characters; those never occur in the payloads reasoned
about here.) -/
def escapeChar (c : Char) : String :=
  if c = '"' then "\\\""
  else if c = '\\' then "\\\\"
  else if c = '\n' then "\\n"
  else if c = '\t' then "\\t"
  else if c = '\r' then "\\r"
  else String.singleton c

def escapeString (s : String) : String :=
  String.join (s.data.map escapeChar)

mutual

/-- `json.dumps` with CPython's default separators `", "` and `": "`. -/
def dumps : Json → String
  | .null => "null"
  | .bool true => "true"
  | .bool false => "false"
  | .num n => toString n
  | .str s => "\"" ++ escapeString s ++ "\""
  | .arr xs => "[" ++ dumpsElems xs ++ "]"
  | .obj fs => "\x7b" ++ dumpsFields fs ++ "\x7d"

def dumpsElems : List Json → String
  | [] => ""
  | [x] => dumps x
  | x :: xs => dumps x ++ ", " ++ dumpsElems xs

def dumpsFields : List (String × Json) → String
  | [] => ""
  | [(k, v)] => "\"" ++ escapeString k ++ "\": " ++ dumps v
  | (k, v) :: fs =>
      "\"" ++ escapeString k ++ "\": " ++ dumps v ++ ", " ++ dumpsFields fs

end

/-- JSON insignificant whitespace. -/
def isWs (c : Char) : Bool :=
  c = ' ' || c = '\t' || c = '\n' || c = '\r'

def skipWs : List Char → List Char
  | [] => []
  | c :: cs => if isWs c then skipWs cs else c :: cs

/-- Decode one string escape, as `json.loads` does (without the `\\u`
form, which no payload in this development contains). -/
def unescapeChar (c : Char) : Option Char :=
  if c = '"' then some '"'
  else if c = '\\' then some '\\'
  else if c = '/' then some '/'
  else if c = 'n' then some '\n'
  else if c = 't' then some '\t'
  else if c = 'r' then some '\r'
  else if c = 'b' then some (Char.ofNat 8)
  else if c = 'f' then some (Char.ofNat 12)
  else none

/-- Parse the body of a JSON string literal (the opening quote already
consumed), returning the decoded string and the unread remainder. -/
def parseStringBody : List Char → Option (String × List Char)
  | [] => none
  | '"' :: cs => some ("", cs)
  | '\\' :: e :: cs => do
      let c ← unescapeChar e
      let (s, rest) ← parseStringBody cs
      pure (String.singleton c ++ s, rest)
  | ['\\'] => none
  | c :: cs => do
      let (s, rest) ← parseStringBody cs
      pure (String.singleton c ++ s, rest)

def parseDigits (acc : Nat) : List Char → Nat × List Char
  | [] => (acc, [])
  | c :: cs =>
      if c.isDigit then parseDigits (acc * 10 + (c.toNat - '0'.toNat)) cs
      else (acc, c :: cs)

/-- Parse an integer literal (optional leading minus). -/
def parseInt : List Char → Option (Int × List Char)
  | '-' :: c :: cs =>
      if c.isDigit then
        let (n, rest) := parseDigits (c.toNat - '0'.toNat) cs
        some (-(n : Int), rest)
      else none
  | c :: cs =>
      if c.isDigit then
        let (n, rest) := parseDigits (c.toNat - '0'.toNat) cs
        some ((n : Int), rest)
      else none
  | [] => none

def expectChars : List Char → List Char → Option (List Char)
  | [], cs => some cs
  | e :: es, c :: cs => if c = e then expectChars es cs else none
  | _ :: _, [] => none

/-- Drop every binding of `k`. -/
def eraseKey {α : Type} (fields : List (String × α)) (k : String) :
    List (String × α) :=
  fields.filter (fun p => p.1 ≠ k)

/-- Combine an object member with the members parsed after it, with
Python `dict` semantics for duplicate keys: the key keeps the slot of
its first occurrence but the last value wins. -/
def insertField (k : String) (v : Json) (fs : List (String × Json)) :
    List (String × Json) :=
  match getKey fs k with
  | some v' => (k, v') :: eraseKey fs k
  | none => (k, v) :: fs

mutual

/-- Recursive-descent JSON value parser standing in for `json.loads`.
`fuel` bounds the nesting/element recursion; the top-level entry point
supplies enough for any input. -/
def parseVal (fuel : Nat) (cs : List Char) : Option (Json × List Char) :=
  match fuel with
  | 0 => none
  | fuel + 1 =>
    match skipWs cs with
    | [] => none
    | 'n' :: rest => do
        let r ← expectChars ['u', 'l', 'l'] rest
        pure (Json.null, r)
    | 't' :: rest => do
        let r ← expectChars ['r', 'u', 'e'] rest
        pure (Json.bool true, r)
    | 'f' :: rest => do
        let r ← expectChars ['a', 'l', 's', 'e'] rest
        pure (Json.bool false, r)
    | '"' :: rest => do
        let (s, r) ← parseStringBody rest
        pure (Json.str s, r)
    | '[' :: rest =>
        (match skipWs rest with
         | ']' :: r => some (Json.arr [], r)
         | other => do
             let (xs, r) ← parseElems fuel other
             pure (Json.arr xs, r))
    | '\x7b' :: rest =>
        (match skipWs rest with
         | '\x7d' :: r => some (Json.obj [], r)
         | other => do
             let (fs, r) ← parseFields fuel other
             pure (Json.obj fs, r))
    | other => parseInt other >>= fun (n, r) => some (Json.num n, r)

/-- Comma-separated array elements up to the closing bracket. -/
def parseElems (fuel : Nat) (cs : List Char) : Option (List Json × List Char) :=
  match fuel with
  | 0 => none
  | fuel + 1 => do
      let (v, rest) ← parseVal fuel cs
      match skipWs rest with
      | ',' :: r => do
          let (xs, r') ← parseElems fuel r
          pure (v :: xs, r')
      | ']' :: r => pure ([v], r)
      | _ => none

/-- Comma-separated `"key": value` members up to the closing brace.
Duplicate keys follow Python `dict` semantics: the later binding wins,
in the position of the earlier one. -/
def parseFields (fuel : Nat) (cs : List Char) :
    Option (List (String × Json) × List Char) :=
  match fuel with
  | 0 => none
  | fuel + 1 =>
    match skipWs cs with
    | '"' :: rest => do
        let (k, r1) ← parseStringBody rest
        match skipWs r1 with
        | ':' :: r2 => do
            let (v, r3) ← parseVal fuel r2
            match skipWs r3 with
            | ',' :: r4 => do
                let (fs, r5) ← parseFields fuel r4
                pure (insertField k v fs, r5)
            | '\x7d' :: r4 => pure ([(k, v)], r4)
            | _ => none
        | _ => none
    | _ => none

end

/-- `json.loads`: parse one value and require only whitespace after it. -/
def loads (s : String) : Option Json :=
  match parseVal (s.length + 1) s.data with
  | some (v, rest) => if skipWs rest = [] then some v else none
  | none => none

/-! ## Relay Server side: `handle_socket_connection` and `run_socket_server` -/

/-- A value held in a persisted document: JSON data from the decoded
payload, or the `datetime.now()` timestamp (modelled as a natural
number) that the handling unit attaches under the key `"date"`. -/
inductive Value where
  | json (j : Json)
  | date (t : Nat)

/-- A document as handed to `collection.insert_one`: the decoded
payload dict, possibly updated with the `"date"` timestamp. -/
abbrev Doc := List (String × Value)

/-- The decoded JSON object's fields viewed as a document. -/
def toDoc (fields : List (String × Json)) : Doc :=
  fields.map (fun p => (p.1, Value.json p.2))

/-- Outcome of the external `collection.insert_one` call: the MongoDB
driver either accepts the document or raises (`fail` carries the
exception text). -/
inductive SinkOutcome where
  | ok
  | fail (err : String)

/-- One diagnostic log line, `logging.info` or `logging.error`. -/
inductive Log where
  | info (s : String)
  | error (s : String)

/-- The `message.get("username", "Unknown")` interpolated into the
success log line.  A decoded non-string value would be rendered by
Python `str()`; that rendering is abstracted as a fixed placeholder,
which no theorem below depends on. -/
def shownUsername (message : Doc) : String :=
  match getKey message "username" with
  | some (Value.json (Json.str s)) => s
  | some _ => "?"
  | none => "Unknown"

/-- Everything `handle_socket_connection` observably does with one
accepted connection: the documents it inserts, the log lines it
writes, the bytes it writes back to the peer, and whether it closed
the connection. -/
structure RelayResult where
  persisted : List Doc
  logs : List Log
  sentToPeer : List String
  closed : Bool

/-- The `try` body of `handle_socket_connection` in `main.py`
(lines 174-182).  `data` is what `conn.recv(1024)` returned, decoded
as text (`if data:` is the emptiness test on it); `now` is
`datetime.now()`; `sink` is the outcome of `collection.insert_one`.
An `Except.error` is a raised exception — a `JSONDecodeError` from
`json.loads`, a `TypeError` from item assignment on a non-dict, or
whatever the driver raised — to be caught by the `except` clause. -/
def handleBody (data : String) (now : Nat) (sink : SinkOutcome) :
    Except String (List Doc × List Log) :=
  if data = "" then
    Except.ok ([], [])
  else
    match loads data with
    | none => Except.error "json.decoder.JSONDecodeError"
    | some j =>
        match j with
        | Json.obj fields =>
            let message := setKey (toDoc fields) "date" (Value.date now)
            match sink with
            | SinkOutcome.fail e => Except.error e
            | SinkOutcome.ok =>
                Except.ok ([message],
                  [Log.info ("Збережено повідомлення від " ++ shownUsername message)])
        | _ => Except.error "TypeError: item assignment on a non-dict"

/-- `handle_socket_connection` (`main.py` lines 165-186): run the
`try` body; an exception is caught and logged by the `except` clause;
the `finally` clause closes the connection on both paths.  The code
contains no write to `conn`, so `sentToPeer` is empty on every path. -/
def handle_socket_connection (data : String) (now : Nat) (sink : SinkOutcome) :
    RelayResult :=
  match handleBody data now sink with
  | Except.ok (docs, logs) =>
      { persisted := docs, logs := logs, sentToPeer := [], closed := true }
  | Except.error e =>
      { persisted := [],
        logs := [Log.error ("Помилка обробки повідомлення: " ++ e)],
        sentToPeer := [], closed := true }

/-- Outcome of the startup calls inside the `try` of
`run_socket_server` (`MongoClient`, `bind`, `listen`): `fail` is an
exception raised before the accept loop is reached, e.g. the address
already being in use at `bind`. -/
inductive BindOutcome where
  | ok
  | fail (err : String)

/-- One queued inbound connection for the accept loop: the bytes its
peer sends, the server clock when it is handled, and the insert
outcome its handling unit will see. -/
structure ConnInput where
  data : String
  now : Nat
  sink : SinkOutcome

/-- Observable outcome of `run_socket_server`: whether the accept loop
was reached, the startup log, and the per-connection results of the
spawned handling units. -/
structure ServerResult where
  accepting : Bool
  logs : List Log
  handled : List RelayResult

/-- `run_socket_server` (`main.py` lines 137-161).  The `while True`
accept loop never exits on its own, so it is modelled over an
arbitrary finite list of inbound connections; each accepted connection
is handed to `handle_socket_connection` on its own thread, and an
exception inside a handling unit stays on that thread — it cannot
reach or stop the loop, which is why every queued connection is
handled regardless of the others.  A startup exception is caught,
logged, and the function returns without accepting anything. -/
def run_socket_server (bind : BindOutcome) (conns : List ConnInput) :
    ServerResult :=
  match bind with
  | BindOutcome.fail e =>
      { accepting := false,
        logs := [Log.error ("Помилка запуску сокет-сервера: " ++ e)],
        handled := [] }
  | BindOutcome.ok =>
      { accepting := true,
        logs := [Log.info "Сокет-сервер запущено"],
        handled := conns.map (fun c => handle_socket_connection c.data c.now c.sink) }

/-! ## Ingress side: `do_POST`, `send_to_socket`, `redirect_to_home` -/

/-- Modelled from the spec: `config.py` is not among the provided
source files; the configuration surface (spec §6) supplies the Relay
Server address externally.  No claim depends on the concrete values. -/
def SOCKET_HOST : String := "0.0.0.0"

/-- Modelled from the spec: the externally supplied relay port,
see `SOCKET_HOST`. -/
def SOCKET_PORT : Nat := 5000

/-- Everything the HTTP handler observably does while serving one POST:
log lines, response status/headers/body written to its stream, and the
socket-client calls towards the Relay Server, in program order. -/
inductive HttpEvent where
  | logError (s : String)
  | response (code : Nat)
  | header (k v : String)
  | headersEnd
  | fileBody (filename : String)
  | connect (host : String) (port : Nat)
  | sendAll (payload : String)

/-- `send_html_file` (`main.py` lines 96-107) on its success path:
status line, content-type header, and the template file's bytes.  The
`FileNotFoundError` fallback is static-file plumbing outside the core
(spec §1); the templates ship with the repository. -/
def send_html_file (filename : String) (status : Nat := 200) : List HttpEvent :=
  [HttpEvent.response status,
   HttpEvent.header "Content-type" "text/html",
   HttpEvent.headersEnd,
   HttpEvent.fileBody filename]

/-- `send_error_page` (`main.py` lines 124-126). -/
def send_error_page : List HttpEvent :=
  send_html_file "error.html" 404

/-- `redirect_to_home` (`main.py` lines 90-94). -/
def redirect_to_home : List HttpEvent :=
  [HttpEvent.response 302, HttpEvent.header "Location" "/", HttpEvent.headersEnd]

/-- The `message` dict built in `do_POST` from the two form fields. -/
structure FormMsg where
  username : String
  message : String

/-- The dict as `json.dumps` serialises it in `send_to_socket`. -/
def msgJson (m : FormMsg) : Json :=
  Json.obj [("username", Json.str m.username), ("message", Json.str m.message)]

/-- Outcome of the socket-client calls inside the `try` of
`send_to_socket` (`connect` then `sendall`): both succeed, the connect
raises, or the send raises (server down, refused, timeout, ...). -/
inductive NetOutcome where
  | ok
  | connectError (err : String)
  | sendError (err : String)

/-- `send_to_socket` (`main.py` lines 77-88).  The validation guard
`not message.get("username") or not message.get("message")` is the
emptiness test on the two fields; on failure it logs, serves the error
page and returns without touching the network.  Otherwise it connects
and sends the serialised message; any exception from either call is
caught and logged.  (The Python log texts contain apostrophes;
they are rendered here without them.) -/
def send_to_socket (m : FormMsg) (net : NetOutcome) : List HttpEvent :=
  if m.username = "" ∨ m.message = "" then
    HttpEvent.logError "Відсутні обовязкові поля username або message"
      :: send_error_page
  else
    match net with
    | NetOutcome.ok =>
        [HttpEvent.connect SOCKET_HOST SOCKET_PORT,
         HttpEvent.sendAll (dumps (msgJson m))]
    | NetOutcome.connectError e =>
        [HttpEvent.connect SOCKET_HOST SOCKET_PORT,
         HttpEvent.logError ("Помилка при відправці до сокет-сервера: " ++ e)]
    | NetOutcome.sendError e =>
        [HttpEvent.connect SOCKET_HOST SOCKET_PORT,
         HttpEvent.logError ("Помилка при відправці до сокет-сервера: " ++ e)]

/-- Hexadecimal digit value, for percent decoding. -/
def hexVal (c : Char) : Option Nat :=
  if c.isDigit then some (c.toNat - Char.toNat '0')
  else if 'a' ≤ c ∧ c ≤ 'f' then some (c.toNat - Char.toNat 'a' + 10)
  else if 'A' ≤ c ∧ c ≤ 'F' then some (c.toNat - Char.toNat 'A' + 10)
  else none

/-- `urllib.parse.unquote_plus` restricted to single-byte escapes:
`+` becomes a space, a valid `%XX` is decoded, anything else stands. -/
def unquotePlusChars : List Char → List Char
  | [] => []
  | '+' :: cs => ' ' :: unquotePlusChars cs
  | '%' :: h :: l :: rest =>
      match hexVal h, hexVal l with
      | some a, some b => Char.ofNat (a * 16 + b) :: unquotePlusChars rest
      | _, _ => '%' :: unquotePlusChars (h :: l :: rest)
  | ['%', c] => '%' :: unquotePlusChars [c]
  | ['%'] => ['%']
  | c :: cs => c :: unquotePlusChars cs

def unquote_plus (s : String) : String :=
  String.mk (unquotePlusChars s.data)

/-- `str.split(sep)` on characters: `"a&b" → ["a", "b"]`, `"" → [""]`. -/
def splitOnChar (sep : Char) : List Char → List (List Char)
  | [] => [[]]
  | c :: cs =>
      let r := splitOnChar sep cs
      if c = sep then [] :: r
      else
        match r with
        | g :: gs => (c :: g) :: gs
        | [] => [[c]]

/-- `str.split("=", 1)`: the text before the first `=` and the text
after it, or `none` when there is no `=`. -/
def splitFirstEq : List Char → Option (List Char × List Char)
  | [] => none
  | '=' :: cs => some ([], cs)
  | c :: cs => (splitFirstEq cs).map (fun p => (c :: p.1, p.2))

/-- The pair list of `urllib.parse.parse_qsl` with its defaults: split
the query on `&`, split each field at its first `=`, skip empty fields,
fields with no `=` and fields with an empty value
(`keep_blank_values=False`), and percent-decode both sides. -/
def parse_qsl (qs : String) : List (String × String) :=
  (splitOnChar '&' qs.data).filterMap (fun field =>
    match splitFirstEq field with
    | none => none
    | some (name, value) =>
        if value = [] then none
        else some (unquote_plus (String.mk name), unquote_plus (String.mk value)))

/-- Append a value under a name, grouping as `parse_qs` does. -/
def addParam (d : List (String × List String)) (k v : String) :
    List (String × List String) :=
  match d with
  | [] => [(k, [v])]
  | (k', vs) :: rest =>
      if k' = k then (k, vs ++ [v]) :: rest else (k', vs) :: addParam rest k v

/-- `urllib.parse.parse_qs`: the `parse_qsl` pairs grouped into a dict
of value lists, names in first-appearance order. -/
def parse_qs (qs : String) : List (String × List String) :=
  (parse_qsl qs).foldl (fun d p => addParam d p.1 p.2) []

/-- `params.get(k, [""])[0]`: the first value bound to `k`, or `""`
when the name is absent.  `parse_qs` never produces an empty value
list, so the `[0]` indexing cannot fail. -/
def firstParam (params : List (String × List String)) (k : String) : String :=
  ((getKey params k).getD [""]).headD ""

/-- `do_POST` (`main.py` lines 62-75).  The handler object's I/O is
made explicit: `body` is what `self.rfile.read(content_length)`
returned, decoded as text, and the result is the ordered trace of
everything the handler writes to its log, its response stream and the
relay socket.  On `/message` it extracts the two fields, calls
`send_to_socket` and then — unconditionally, also after a validation
failure inside `send_to_socket` — `redirect_to_home`. -/
def do_POST (path : String) (body : String) (net : NetOutcome) :
    List HttpEvent :=
  if path = "/message" then
    let params := parse_qs body
    let message : FormMsg :=
      { username := firstParam params "username",
        message := firstParam params "message" }
    send_to_socket message net ++ redirect_to_home
  else
    send_error_page

/-! ## Observation helpers over event traces -/

/-- Whether an event is a connection attempt to the Relay Server. -/
def isConnect : HttpEvent → Bool
  | HttpEvent.connect _ _ => true
  | _ => false

/-- Whether an event sends payload bytes to the Relay Server. -/
def isSendAll : HttpEvent → Bool
  | HttpEvent.sendAll _ => true
  | _ => false

/-- Whether an event writes a template file body to the response. -/
def isFileBody : HttpEvent → Bool
  | HttpEvent.fileBody _ => true
  | _ => false

/-! ## Helper lemmas -/

theorem getKey_setKey {α : Type} (fs : List (String × α)) (k : String) (v : α) :
    getKey (setKey fs k v) k = some v := by
  induction fs with
  | nil => simp [setKey, getKey]
  | cons p rest ih =>
      obtain ⟨k', v'⟩ := p
      by_cases h : k' = k
      · simp [setKey, getKey, h]
      · simp [setKey, getKey, h, ih]

theorem loads_empty : loads "" = none := rfl

theorem loads_ne_empty {data : String} {j : Json}
    (h : loads data = some j) : data ≠ "" := by
  intro he
  rw [he, loads_empty] at h
  exact Option.noConfusion h

/-- A successfully decoded JSON object is timestamped under `"date"`
and handed to the sink as one document; on an accepting sink the full
observable outcome of the handling unit is this. -/
theorem handle_decoded_obj (data : String) (fields : List (String × Json))
    (now : Nat) (hdec : loads data = some (Json.obj fields)) :
    handle_socket_connection data now SinkOutcome.ok =
      { persisted := [setKey (toDoc fields) "date" (Value.date now)],
        logs := [Log.info ("Збережено повідомлення від " ++
          shownUsername (setKey (toDoc fields) "date" (Value.date now)))],
        sentToPeer := [], closed := true } := by
  have hne : data ≠ "" := loads_ne_empty hdec
  unfold handle_socket_connection handleBody
  rw [if_neg hne, hdec]

/-- A non-empty payload `json.loads` rejects makes the handling unit
log the decode error and do nothing else, still closing the
connection. -/
theorem handle_decode_fail (data : String) (now : Nat) (sink : SinkOutcome)
    (hne : data ≠ "") (hbad : loads data = none) :
    handle_socket_connection data now sink =
      { persisted := [],
        logs := [Log.error ("Помилка обробки повідомлення: " ++
          "json.decoder.JSONDecodeError")],
        sentToPeer := [], closed := true } := by
  unfold handle_socket_connection handleBody
  rw [if_neg hne, hbad]

/-- On non-empty fields `send_to_socket` makes exactly one connection
and one send of the serialised message. -/
theorem send_to_socket_valid (m : FormMsg)
    (hu : m.username ≠ "") (hm : m.message ≠ "") :
    send_to_socket m NetOutcome.ok =
      [HttpEvent.connect SOCKET_HOST SOCKET_PORT,
       HttpEvent.sendAll (dumps (msgJson m))] := by
  unfold send_to_socket
  rw [if_neg (not_or.mpr ⟨hu, hm⟩)]

/-- The full trace of a POST to `/message` whose extracted `username`
or `message` is empty: the validation log line, the error page, and
then the unconditional redirect. -/
theorem do_POST_invalid (body : String) (net : NetOutcome)
    (h : firstParam (parse_qs body) "username" = "" ∨
         firstParam (parse_qs body) "message" = "") :
    do_POST "/message" body net =
      HttpEvent.logError "Відсутні обовязкові поля username або message"
        :: (send_error_page ++ redirect_to_home) := by
  unfold do_POST
  rw [if_pos rfl]
  unfold send_to_socket
  dsimp only
  rw [if_pos h]
  rfl

/-! ## The claims -/

/-- C1: For every well-formed submission whose `username` and
`message` are both non-empty, whose serialised payload is delivered to
and successfully decoded by the Relay Server, and whose insert the
Storage Sink accepts, the ingress side makes exactly one connection
carrying one send of the serialised message, and the handling unit
persists exactly one document that holds the submitted `username` and
`message` fields plus the server-assigned timestamp. -/
theorem valid_submission_persists_one_document
    (m : FormMsg) (now : Nat)
    (hu : m.username ≠ "") (hm : m.message ≠ "")
    (hdec : loads (dumps (msgJson m)) = some (msgJson m)) :
    send_to_socket m NetOutcome.ok =
      [HttpEvent.connect SOCKET_HOST SOCKET_PORT,
       HttpEvent.sendAll (dumps (msgJson m))] ∧
    (handle_socket_connection (dumps (msgJson m)) now SinkOutcome.ok).persisted =
      [[("username", Value.json (Json.str m.username)),
        ("message", Value.json (Json.str m.message)),
        ("date", Value.date now)]] := by
  refine ⟨send_to_socket_valid m hu hm, ?_⟩
  rw [handle_decoded_obj _ _ now hdec]
  simp [toDoc, msgJson, setKey]

/-- Concrete run of `valid_submission_persists_one_document` on the
submission `alice` / `hello` at server time 42. -/
theorem valid_submission_persists_one_document_witness :
    send_to_socket ⟨"alice", "hello"⟩ NetOutcome.ok =
      [HttpEvent.connect SOCKET_HOST SOCKET_PORT,
       HttpEvent.sendAll (dumps (msgJson ⟨"alice", "hello"⟩))] ∧
    (handle_socket_connection (dumps (msgJson ⟨"alice", "hello"⟩)) 42
        SinkOutcome.ok).persisted =
      [[("username", Value.json (Json.str "alice")),
        ("message", Value.json (Json.str "hello")),
        ("date", Value.date 42)]] :=
  valid_submission_persists_one_document ⟨"alice", "hello"⟩ 42
    (by decide) (by decide) (by rfl)

/-- C2: A submission whose extracted `username` or `message` is empty
triggers zero connection attempts and zero sends towards the Relay
Server — so nothing can reach persistence — and the client-visible
error page is written, its full trace being the validation log line,
the error page and the trailing redirect. -/
theorem empty_field_no_connection
    (body : String) (net : NetOutcome)
    (h : firstParam (parse_qs body) "username" = "" ∨
         firstParam (parse_qs body) "message" = "") :
    (do_POST "/message" body net).filter isConnect = [] ∧
    (do_POST "/message" body net).filter isSendAll = [] ∧
    do_POST "/message" body net =
      HttpEvent.logError "Відсутні обовязкові поля username або message"
        :: (send_error_page ++ redirect_to_home) := by
  have ht := do_POST_invalid body net h
  rw [ht]
  exact ⟨rfl, rfl, rfl⟩

/-- Concrete run of `empty_field_no_connection` on a form body whose
`username` value is blank (and hence dropped by `parse_qs`). -/
theorem empty_field_no_connection_witness :
    (do_POST "/message" "username=&message=hi" NetOutcome.ok).filter isConnect
        = [] ∧
    (do_POST "/message" "username=&message=hi" NetOutcome.ok).filter isSendAll
        = [] ∧
    do_POST "/message" "username=&message=hi" NetOutcome.ok =
      HttpEvent.logError "Відсутні обовязкові поля username або message"
        :: (send_error_page ++ redirect_to_home) :=
  empty_field_no_connection "username=&message=hi" NetOutcome.ok
    (Or.inl (by decide))

/-- C3: On a valid (non-empty-fields) submission whose connect or send
to the Relay Server raises, the error is logged and the handler still
writes the normal 302 redirect with its Location header; the trace
contains no error-page body, so the failure is invisible to the end
user. -/
theorem transport_failure_logged_still_redirects
    (body e : String) (net : NetOutcome)
    (hu : firstParam (parse_qs body) "username" ≠ "")
    (hm : firstParam (parse_qs body) "message" ≠ "")
    (hnet : net = NetOutcome.connectError e ∨ net = NetOutcome.sendError e) :
    do_POST "/message" body net =
      [HttpEvent.connect SOCKET_HOST SOCKET_PORT,
       HttpEvent.logError ("Помилка при відправці до сокет-сервера: " ++ e),
       HttpEvent.response 302, HttpEvent.header "Location" "/",
       HttpEvent.headersEnd] ∧
    (do_POST "/message" body net).filter isFileBody = [] := by
  unfold do_POST
  rw [if_pos rfl]
  unfold send_to_socket
  dsimp only
  rw [if_neg (not_or.mpr ⟨hu, hm⟩)]
  rcases hnet with h | h <;> rw [h] <;> exact ⟨rfl, rfl⟩

/-- Concrete run of `transport_failure_logged_still_redirects` with a
refused connection. -/
theorem transport_failure_logged_still_redirects_witness :
    do_POST "/message" "username=alice&message=hi"
        (NetOutcome.connectError "Connection refused") =
      [HttpEvent.connect SOCKET_HOST SOCKET_PORT,
       HttpEvent.logError ("Помилка при відправці до сокет-сервера: " ++
         "Connection refused"),
       HttpEvent.response 302, HttpEvent.header "Location" "/",
       HttpEvent.headersEnd] ∧
    (do_POST "/message" "username=alice&message=hi"
        (NetOutcome.connectError "Connection refused")).filter isFileBody
      = [] :=
  transport_failure_logged_still_redirects "username=alice&message=hi"
    "Connection refused" (NetOutcome.connectError "Connection refused")
    (by decide) (by decide) (Or.inl rfl)

/-- C4: An accepted connection delivering zero bytes makes the
handling unit persist nothing, log nothing (no error), write nothing
back, and close the connection. -/
theorem zero_byte_connection_is_noop (now : Nat) (sink : SinkOutcome) :
    handle_socket_connection "" now sink =
      { persisted := [], logs := [], sentToPeer := [], closed := true } := rfl

/-- C5: A non-empty payload `json.loads` rejects makes the handling
unit log the decode failure, persist nothing, write nothing back to
the peer, and close the connection; and the accept loop, whose spawned
units cannot reach it, still handles every queued connection. -/
theorem malformed_payload_contained
    (data : String) (now : Nat) (sink : SinkOutcome) (conns : List ConnInput)
    (hne : data ≠ "") (hbad : loads data = none) :
    handle_socket_connection data now sink =
      { persisted := [],
        logs := [Log.error ("Помилка обробки повідомлення: " ++
          "json.decoder.JSONDecodeError")],
        sentToPeer := [], closed := true } ∧
    (run_socket_server BindOutcome.ok conns).accepting = true ∧
    (run_socket_server BindOutcome.ok conns).handled.length = conns.length := by
  refine ⟨handle_decode_fail data now sink hne hbad, rfl, ?_⟩
  simp [run_socket_server]

/-- Concrete run of `malformed_payload_contained` on a payload that is
not JSON, queued before a further connection that is still handled. -/
theorem malformed_payload_contained_witness :
    handle_socket_connection "not json" 0 SinkOutcome.ok =
      { persisted := [],
        logs := [Log.error ("Помилка обробки повідомлення: " ++
          "json.decoder.JSONDecodeError")],
        sentToPeer := [], closed := true } ∧
    (run_socket_server BindOutcome.ok
        [⟨"not json", 0, SinkOutcome.ok⟩, ⟨"", 1, SinkOutcome.ok⟩]).accepting
      = true ∧
    (run_socket_server BindOutcome.ok
        [⟨"not json", 0, SinkOutcome.ok⟩, ⟨"", 1, SinkOutcome.ok⟩]).handled.length
      = 2 :=
  malformed_payload_contained "not json" 0 SinkOutcome.ok
    [⟨"not json", 0, SinkOutcome.ok⟩, ⟨"", 1, SinkOutcome.ok⟩]
    (by decide) (by rfl)

/-- C6: On every successfully decoded object the persisted document is
exactly the decoded fields with `"date"` set to the current server
time: the timestamp is assigned once, between decode and persistence,
and the stored `"date"` is the server clock value — never a
client-supplied JSON value, even when the payload carries a `"date"`
field of its own. -/
theorem timestamp_is_server_assigned
    (data : String) (fields : List (String × Json)) (now : Nat)
    (hdec : loads data = some (Json.obj fields)) :
    (handle_socket_connection data now SinkOutcome.ok).persisted =
      [setKey (toDoc fields) "date" (Value.date now)] ∧
    getKey (setKey (toDoc fields) "date" (Value.date now)) "date" =
      some (Value.date now) ∧
    ∀ j : Json,
      getKey (setKey (toDoc fields) "date" (Value.date now)) "date" ≠
        some (Value.json j) := by
  refine ⟨by rw [handle_decoded_obj _ _ now hdec], getKey_setKey _ _ _, ?_⟩
  intro j h
  rw [getKey_setKey] at h
  exact Value.noConfusion (Option.some.inj h)

/-- Concrete run of `timestamp_is_server_assigned` on a payload that
itself carries a `"date"` field, overridden by server time 7. -/
theorem timestamp_is_server_assigned_witness :
    (handle_socket_connection "\x7b\"username\": \"bob\", \"date\": 123\x7d" 7
        SinkOutcome.ok).persisted =
      [setKey (toDoc [("username", Json.str "bob"), ("date", Json.num 123)])
        "date" (Value.date 7)] ∧
    getKey (setKey (toDoc [("username", Json.str "bob"), ("date", Json.num 123)])
        "date" (Value.date 7)) "date" = some (Value.date 7) ∧
    ∀ j : Json,
      getKey (setKey (toDoc [("username", Json.str "bob"), ("date", Json.num 123)])
          "date" (Value.date 7)) "date" ≠ some (Value.json j) :=
  timestamp_is_server_assigned "\x7b\"username\": \"bob\", \"date\": 123\x7d"
    [("username", Json.str "bob"), ("date", Json.num 123)] 7 (by rfl)

/-- C7: The handling unit closes the accepted connection on every exit
path — zero-byte, decode failure, persistence failure and the happy
path are all instances of this universally quantified statement. -/
theorem connection_closed_on_every_path
    (data : String) (now : Nat) (sink : SinkOutcome) :
    (handle_socket_connection data now sink).closed = true := by
  unfold handle_socket_connection
  cases handleBody data now sink with
  | ok p => cases p; rfl
  | error e => rfl

/-- C8: When startup raises — the listen address already in use or
otherwise unbindable — the Relay Server never reaches its accept loop:
zero connections are accepted or handled, and only the fatal startup
error is logged. -/
theorem bind_failure_is_fatal (e : String) (conns : List ConnInput) :
    (run_socket_server (BindOutcome.fail e) conns).accepting = false ∧
    (run_socket_server (BindOutcome.fail e) conns).handled = [] ∧
    (run_socket_server (BindOutcome.fail e) conns).logs =
      [Log.error ("Помилка запуску сокет-сервера: " ++ e)] :=
  ⟨rfl, rfl, rfl⟩

/-- C9: The handling unit performs no field validation: any payload
that decodes as a JSON object — empty or missing `username` and
`message` included — is timestamped and persisted as exactly one
document, while the non-empty-fields check is enforced only by the
ingress side, whose `send_to_socket` makes no connection on an empty
field. -/
theorem relay_performs_no_field_validation
    (data : String) (fields : List (String × Json)) (now : Nat)
    (hdec : loads data = some (Json.obj fields)) :
    (handle_socket_connection data now SinkOutcome.ok).persisted.length = 1 ∧
    (handle_socket_connection data now SinkOutcome.ok).persisted =
      [setKey (toDoc fields) "date" (Value.date now)] ∧
    ∀ (m : FormMsg) (net : NetOutcome),
      m.username = "" ∨ m.message = "" →
        (send_to_socket m net).filter isConnect = [] := by
  refine ⟨?_, by rw [handle_decoded_obj _ _ now hdec], ?_⟩
  · rw [handle_decoded_obj _ _ now hdec]
    rfl
  intro m net hm
  unfold send_to_socket
  rw [if_pos hm]
  rfl

/-- Concrete run of `relay_performs_no_field_validation` on a payload
whose `username` is empty and whose `message` field is missing. -/
theorem relay_performs_no_field_validation_witness :
    (handle_socket_connection "\x7b\"username\": \"\"\x7d" 3
        SinkOutcome.ok).persisted.length = 1 ∧
    (handle_socket_connection "\x7b\"username\": \"\"\x7d" 3
        SinkOutcome.ok).persisted =
      [setKey (toDoc [("username", Json.str "")]) "date" (Value.date 3)] ∧
    ∀ (m : FormMsg) (net : NetOutcome),
      m.username = "" ∨ m.message = "" →
        (send_to_socket m net).filter isConnect = [] :=
  relay_performs_no_field_validation "\x7b\"username\": \"\"\x7d"
    [("username", Json.str "")] 3 (by rfl)

/-- C10: On the validation-failure path of a POST to `/message`, after
the error page is written the handler still writes a 302 response with
a Location header onto the same stream: the full trace is the log
line, the 404 error page, and then the redirect. -/
theorem validation_failure_followed_by_redirect
    (body : String) (net : NetOutcome)
    (h : firstParam (parse_qs body) "username" = "" ∨
         firstParam (parse_qs body) "message" = "") :
    do_POST "/message" body net =
      [HttpEvent.logError "Відсутні обовязкові поля username або message",
       HttpEvent.response 404, HttpEvent.header "Content-type" "text/html",
       HttpEvent.headersEnd, HttpEvent.fileBody "error.html",
       HttpEvent.response 302, HttpEvent.header "Location" "/",
       HttpEvent.headersEnd] := by
  rw [do_POST_invalid body net h]
  rfl

/-- Concrete run of `validation_failure_followed_by_redirect` on a
form body with no `username` field at all. -/
theorem validation_failure_followed_by_redirect_witness :
    do_POST "/message" "message=hi" NetOutcome.ok =
      [HttpEvent.logError "Відсутні обовязкові поля username або message",
       HttpEvent.response 404, HttpEvent.header "Content-type" "text/html",
       HttpEvent.headersEnd, HttpEvent.fileBody "error.html",
       HttpEvent.response 302, HttpEvent.header "Location" "/",
       HttpEvent.headersEnd] :=
  validation_failure_followed_by_redirect "message=hi" NetOutcome.ok
    (Or.inl (by decide))

end Relay
